import Mathlib

/-!
# Gesture recognition engine: shallow embedding

A shallow embedding of the gesture-recognition core of `backend.py`
(`GestureEngine` and its helpers).  Python floats are modelled as real
numbers, Python ints as integers; the `deque(maxlen=64)` sample buffer is
a list that keeps its most recent 64 entries.  Each definition mirrors the
corresponding source function; line references point into `backend.py`.
-/

namespace GestureKeys

noncomputable section

/-- Quantized motion direction, the strings `"U"`, `"R"`, `"D"`, `"L"` of the
source. -/
inductive Dir where
  | U : Dir
  | R : Dir
  | D : Dir
  | L : Dir
deriving DecidableEq, Repr

/-- The `angle_mode` setting: `"axis"` or anything else (angle sectors). -/
inductive AngleMode where
  | axis : AngleMode
  | angle : AngleMode
deriving DecidableEq, Repr

/-- Engine-relevant configuration: the `Settings` fields read by
`GestureEngine` together with the ambient canvas globals `W`, `H`
(`backend.py` lines 72-92). -/
structure Config where
  speedThreshold : ℝ
  canvasW : ℤ
  canvasH : ℤ
  resetRadius : ℤ
  debounceMs : ℤ
  requireReset : Bool
  angleMode : AngleMode

/-- Fixed activation band thickness `BAND_X` (line 76). -/
def bandX : ℤ := 24

/-- Fixed activation band thickness `BAND_Y` (line 77). -/
def bandY : ℤ := 24

/-- Canvas center x-coordinate `CX = W // 2` (line 73). -/
def cxR (cfg : Config) : ℝ := ((cfg.canvasW / 2 : ℤ) : ℝ)

/-- Canvas center y-coordinate `CY = H // 2` (line 73). -/
def cyR (cfg : Config) : ℝ := ((cfg.canvasH / 2 : ℤ) : ℝ)

/-- A configured macro: `Macro(pattern, key, name)` (lines 94-98). -/
structure MacroRule where
  pattern : List Dir
  key : String
  name : String
deriving DecidableEq, Repr

/-- Mutable state of `GestureEngine` (lines 141-153). -/
structure EngineState where
  samples : List (ℝ × ℝ × ℝ)
  seq : List Dir
  lastAcceptTs : ℝ
  insideReset : Bool
  needReset : Bool
  lastDir : Option Dir
  speedMedian : ℝ
  lastAboveThresholdTs : ℝ
  lastSampleTs : ℝ

/-- Freshly constructed engine state (`__init__`, lines 141-153). -/
def initEngine : EngineState where
  samples := []
  seq := []
  lastAcceptTs := 0
  insideReset := false
  needReset := false
  lastDir := none
  speedMedian := 0
  lastAboveThresholdTs := 0
  lastSampleTs := 0

/-- `GestureEngine.reset(t)` with an explicit anchor time `t`
(lines 163-174).  The prior state is discarded wholesale. -/
def reset (_s : EngineState) (t : ℝ) : EngineState where
  samples := []
  seq := []
  lastAcceptTs := 0
  insideReset := false
  needReset := false
  lastDir := none
  speedMedian := 0
  lastAboveThresholdTs := 0
  lastSampleTs := t

/-- `math.hypot(dx, dy)`. -/
def hypot (dx dy : ℝ) : ℝ := Real.sqrt (dx ^ 2 + dy ^ 2)

/-- `math.atan2(y, x)` on the reals (the mathematical two-argument
arctangent, ignoring signed zeros). -/
def atan2 (y x : ℝ) : ℝ :=
  if 0 < x then Real.arctan (y / x)
  else if x < 0 ∧ 0 ≤ y then Real.arctan (y / x) + Real.pi
  else if x < 0 then Real.arctan (y / x) - Real.pi
  else if 0 < y then Real.pi / 2
  else if y < 0 then -(Real.pi / 2)
  else 0

/-- `math.degrees`. -/
def degrees (r : ℝ) : ℝ := r * 180 / Real.pi

/-- Python's float modulo `a % m` for positive `m`. -/
def pymod (a m : ℝ) : ℝ := a - m * (⌊a / m⌋ : ℤ)

/-- `GestureEngine._median` (lines 176-185): zero on the empty list,
otherwise sort and take the middle element (odd length) or the average of
the two middle elements (even length). -/
def median (vals : List ℝ) : ℝ :=
  if vals = [] then 0
  else
    let v := vals.insertionSort (fun a b => a ≤ b)
    let n := vals.length
    let m := n / 2
    if n % 2 = 1 then v.getD m 0 else 0.5 * (v.getD (m - 1) 0 + v.getD m 0)

/-- Direction quantization from the summed deltas (lines 205-216): axis
mode compares `|Σdx|` with `|Σdy|`; angle mode maps the normalized
degree angle of `(Σdx, -Σdy)` to quadrant sectors. -/
def dirOfSums (cfg : Config) (dxSum dySum : ℝ) : Dir :=
  match cfg.angleMode with
  | .axis =>
    if |dxSum| > |dySum| then (if dxSum > 0 then .R else .L)
    else (if dySum > 0 then .D else .U)
  | .angle =>
    let ang := degrees (atan2 (-dySum) dxSum)
    let a := pymod (ang + 360) 360
    if a ≤ 45 ∨ a > 315 then .R
    else if a ≤ 135 then .U
    else if a ≤ 225 then .L
    else .D

/-- `GestureEngine._compute_speed_and_dir` (lines 187-218).  With fewer
than 3 samples: no speed, no direction.  Otherwise pairs are formed by
the loop `for i in range(1, min(6, len(samples)))` over reverse indices
(`samples[-i-1]`, `samples[-i]`), so the per-pair lists run
newest-to-oldest; `dxs[-3:]` is modelled by `List.drop (length - 3)`. -/
def computeSpeedAndDir (cfg : Config) (samples : List (ℝ × ℝ × ℝ)) :
    ℝ × Option Dir × (ℝ × ℝ) :=
  if samples.length < 3 then (0, none, (0, 0))
  else
    let n := samples.length
    let idxs := List.range' 1 (min 6 n - 1)
    let get := fun (k : ℕ) => samples.getD k (0, 0, 0)
    let speeds := idxs.map (fun i =>
      hypot ((get (n - i)).2.1 - (get (n - i - 1)).2.1)
            ((get (n - i)).2.2 - (get (n - i - 1)).2.2) /
        max (1 / 10000) ((get (n - i)).1 - (get (n - i - 1)).1))
    let dxs := idxs.map (fun i => (get (n - i)).2.1 - (get (n - i - 1)).2.1)
    let dys := idxs.map (fun i => (get (n - i)).2.2 - (get (n - i - 1)).2.2)
    let dxSum := (dxs.drop (dxs.length - 3)).sum
    let dySum := (dys.drop (dys.length - 3)).sum
    (median speeds, some (dirOfSums cfg dxSum dySum), (dxSum, dySum))

/-- `GestureEngine._in_band` (lines 220-226). -/
def inBand (cfg : Config) (x y : ℝ) (d : Dir) : Bool :=
  match d with
  | .U => decide (y ≤ (bandY : ℝ))
  | .D => decide (((cfg.canvasH - bandY : ℤ) : ℝ) ≤ y)
  | .L => decide (x ≤ (bandX : ℝ))
  | .R => decide (((cfg.canvasW - bandX : ℤ) : ℝ) ≤ x)

/-- `GestureEngine._inside_reset_circle` (lines 228-229): squared-distance
test against `reset_radius_px ** 2`. -/
def insideResetCircle (cfg : Config) (x y : ℝ) : Bool :=
  decide ((x - cxR cfg) ^ 2 + (y - cyR cfg) ^ 2 ≤ ((cfg.resetRadius ^ 2 : ℤ) : ℝ))

/-- Append to the `deque(maxlen=64)` sample buffer (line 141): oldest
entries are evicted beyond capacity 64. -/
def pushSample (l : List (ℝ × ℝ × ℝ)) (p : ℝ × ℝ × ℝ) : List (ℝ × ℝ × ℝ) :=
  let l2 := l ++ [p]
  if l2.length ≤ 64 then l2 else l2.drop (l2.length - 64)

/-- The reset-circle bookkeeping at the top of `push` (lines 234-238):
`need_reset` is cleared on an outside-to-inside transition when
`require_reset_between_hits` is set. -/
def updatedNeedReset (cfg : Config) (s : EngineState) (x y : ℝ) : Bool :=
  if insideResetCircle cfg x y && !s.insideReset then
    (if cfg.requireReset then false else s.needReset)
  else s.needReset

/-- Python slice `l[-k:]` for `k ≥ 0`: the whole list when `k = 0`
(`l[0:]`), otherwise the last `k` elements (clamped at the front). -/
def pySliceLast (l : List Dir) (k : ℕ) : List Dir :=
  if k = 0 then l else l.drop (l.length - k)

/-- The per-macro match test of line 271:
`len(seq) >= len(pattern) and seq[-len(pattern):] == pattern`. -/
def suffixMatches (seq : List Dir) (m : MacroRule) : Prop :=
  m.pattern.length ≤ seq.length ∧ pySliceLast seq m.pattern.length = m.pattern

instance (seq : List Dir) (m : MacroRule) : Decidable (suffixMatches seq m) := by
  unfold suffixMatches; infer_instance

/-- The macro scan of lines 270-274: first match in list order fires,
clears the whole sequence and stops the scan; otherwise the sequence is
returned untouched. -/
def matchStep (macros : List MacroRule) (seq : List Dir) :
    Option MacroRule × List Dir :=
  match macros with
  | [] => (none, seq)
  | m :: rest => if suffixMatches seq m then (some m, []) else matchStep rest seq

/-- `GestureEngine.push(t, x, y)` (lines 231-274).  Returns the new state,
the `on_hit` notification (at most one per push) and the `on_match`
notification (at most one per push). -/
def push (cfg : Config) (macros : List MacroRule) (s : EngineState)
    (t x y : ℝ) : EngineState × Option Dir × Option MacroRule :=
  let ir := insideResetCircle cfg x y
  let nr := updatedNeedReset cfg s x y
  let samples2 := pushSample s.samples (t, x, y)
  let r := computeSpeedAndDir cfg samples2
  let v := r.1
  let d := r.2.1
  let s3 : EngineState :=
    { samples := samples2
      seq := s.seq
      lastAcceptTs := s.lastAcceptTs
      insideReset := ir
      needReset := nr
      lastDir := d
      speedMedian := v
      lastAboveThresholdTs :=
        if d ≠ none ∧ cfg.speedThreshold ≤ v then t else s.lastAboveThresholdTs
      lastSampleTs := t }
  match d with
  | none => (s3, none, none)
  | some dd =>
    if v < cfg.speedThreshold then (s3, none, none)
    else
      let lastP := samples2.getD (samples2.length - 1) (0, 0, 0)
      if !(inBand cfg lastP.2.1 lastP.2.2 dd) then (s3, none, none)
      else if (t - s3.lastAcceptTs) * 1000 < (cfg.debounceMs : ℝ) then (s3, none, none)
      else if cfg.requireReset = true ∧ s3.needReset = true then (s3, none, none)
      else
        let s4 : EngineState :=
          { s3 with
            lastAcceptTs := t
            seq := s3.seq ++ [dd]
            needReset := if cfg.requireReset then true else s3.needReset }
        if macros.isEmpty then (s4, some dd, none)
        else
          let mr := matchStep macros s4.seq
          ({ s4 with seq := mr.2 }, some dd, mr.1)

/-- Feed a list of samples through `push`, collecting the hit and match
notifications in order. -/
def runEngine (cfg : Config) (macros : List MacroRule) (s : EngineState) :
    List (ℝ × ℝ × ℝ) → EngineState × List Dir × List MacroRule
  | [] => (s, [], [])
  | p :: ps =>
    let r := push cfg macros s p.1 p.2.1 p.2.2
    let rest := runEngine cfg macros r.1 ps
    (rest.1, r.2.1.toList ++ rest.2.1, r.2.2.toList ++ rest.2.2)

/-- Feed a list of accepted hits through the append-then-match tail of
`push` (lines 262-274), collecting the fired macros in order. -/
def feedHits (macros : List MacroRule) (seq0 : List Dir) (ds : List Dir) :
    List MacroRule × List Dir :=
  ds.foldl
    (fun acc d =>
      let s2 := acc.2 ++ [d]
      let r := matchStep macros s2
      (acc.1 ++ r.1.toList, r.2))
    ([], seq0)

/-- The selected tail's per-pair `dx` values, oldest-to-newest.  Modelled
from the spec: "Take up to the last 6 buffered samples, forming up to 5
consecutive pairs (oldest-to-newest among the selected tail)". -/
def specTailDxs (samples : List (ℝ × ℝ × ℝ)) : List ℝ :=
  (List.range (min 6 samples.length - 1)).map (fun j =>
    (samples.getD (samples.length - min 6 samples.length + j + 1) (0, 0, 0)).2.1 -
      (samples.getD (samples.length - min 6 samples.length + j) (0, 0, 0)).2.1)

/-- The selected tail's per-pair `dy` values, oldest-to-newest; see
`specTailDxs`. -/
def specTailDys (samples : List (ℝ × ℝ × ℝ)) : List ℝ :=
  (List.range (min 6 samples.length - 1)).map (fun j =>
    (samples.getD (samples.length - min 6 samples.length + j + 1) (0, 0, 0)).2.2 -
      (samples.getD (samples.length - min 6 samples.length + j) (0, 0, 0)).2.2)

/-- Direction estimate as the spec's words describe it: the sums of `dx`
and `dy` over only the last 3 (most recent) pairs of the selected tail.
Modelled from the spec for comparison against `computeSpeedAndDir`. -/
def specDirNewest3 (cfg : Config) (samples : List (ℝ × ℝ × ℝ)) : Option Dir :=
  if samples.length < 3 then none
  else
    some (dirOfSums cfg
      ((specTailDxs samples).drop ((specTailDxs samples).length - 3)).sum
      ((specTailDys samples).drop ((specTailDys samples).length - 3)).sum)

/-- Configuration of the end-to-end scenario: canvas 420 by 420, speed
threshold 1000 px/s, debounce 50 ms, axis angle mode, remaining settings
at their source defaults. -/
def cfgC1 : Config where
  speedThreshold := 1000
  canvasW := 420
  canvasH := 420
  resetRadius := 50
  debounceMs := 50
  requireReset := false
  angleMode := .axis

/-- The scenario configuration with angle mode instead of axis mode. -/
def cfgAngle : Config := { cfgC1 with angleMode := .angle }

/-- The scenario configuration with a zero-radius reset circle. -/
def cfgZeroR : Config := { cfgC1 with resetRadius := 0 }

/-- Macro `A` with pattern `[Up, Up]`. -/
def mUU : MacroRule where
  pattern := [.U, .U]
  key := "a"
  name := "A"

/-- Macro `B` with pattern `[Up]`. -/
def mU : MacroRule where
  pattern := [.U]
  key := "b"
  name := "B"

/-- A macro whose pattern is the empty list. -/
def mEmpty : MacroRule where
  pattern := []
  key := "x"
  name := "empty"

/-- A single-`Up` macro used alongside `mEmpty`. -/
def mOne : MacroRule where
  pattern := [.U]
  key := "y"
  name := "one"

/-- Six buffered samples whose three oldest tail pairs move up while the
two newest pairs move right: the code's direction window (the oldest 3
pairs) says Up, the spec's claimed window (the newest 3 pairs) says
Right. -/
def sixSamples : List (ℝ × ℝ × ℝ) :=
  [(0, 100, 100), (1/100, 100, 90), (2/100, 100, 80),
   (3/100, 100, 70), (4/100, 130, 70), (5/100, 160, 70)]

/-- Three samples at the same position: all deltas are zero. -/
def threeStill : List (ℝ × ℝ × ℝ) :=
  [(0, 100, 100), (1/100, 100, 100), (1/50, 100, 100)]

/-- Three samples of a purely rightward motion. -/
def threeRight : List (ℝ × ℝ × ℝ) :=
  [(0, 0, 0), (1/100, 30, 0), (1/50, 60, 0)]

/-- Engine state after pushing `(0, 210, 210)` on a fresh engine. -/
def st1cex : EngineState where
  samples := [(0, 210, 210)]
  seq := []
  lastAcceptTs := 0
  insideReset := true
  needReset := false
  lastDir := none
  speedMedian := 0
  lastAboveThresholdTs := 0
  lastSampleTs := 0

/-- Engine state after also pushing `(0.010, 210, 60)`. -/
def st2cex : EngineState where
  samples := [(0, 210, 210), (1/100, 210, 60)]
  seq := []
  lastAcceptTs := 0
  insideReset := false
  needReset := false
  lastDir := none
  speedMedian := 0
  lastAboveThresholdTs := 0
  lastSampleTs := 1/100

/-- Engine state after also pushing `(0.020, 210, 5)`: the motion
qualifies on speed, direction and band, but the debounce gate (20 ms
since `lastAcceptTs = 0`, below 50 ms) rejects it, so no hit is recorded
while `lastAboveThresholdTs` still advances. -/
def st3cex : EngineState where
  samples := [(0, 210, 210), (1/100, 210, 60), (1/50, 210, 5)]
  seq := []
  lastAcceptTs := 0
  insideReset := false
  needReset := false
  lastDir := some Dir.U
  speedMedian := 10250
  lastAboveThresholdTs := 1/50
  lastSampleTs := 1/50

/-- Engine state after pushing `(0.050, 210, 210)` on a fresh engine. -/
def stA1 : EngineState where
  samples := [(1/20, 210, 210)]
  seq := []
  lastAcceptTs := 0
  insideReset := true
  needReset := false
  lastDir := none
  speedMedian := 0
  lastAboveThresholdTs := 0
  lastSampleTs := 1/20

/-- Engine state after also pushing `(0.060, 210, 60)`. -/
def stA2 : EngineState where
  samples := [(1/20, 210, 210), (3/50, 210, 60)]
  seq := []
  lastAcceptTs := 0
  insideReset := false
  needReset := false
  lastDir := none
  speedMedian := 0
  lastAboveThresholdTs := 0
  lastSampleTs := 3/50

/-- Engine state after also pushing `(0.070, 210, 5)`: all five gates
pass (70 ms since `lastAcceptTs = 0` clears the 50 ms debounce) and the
Up hit is accepted. -/
def stA3 : EngineState where
  samples := [(1/20, 210, 210), (3/50, 210, 60), (7/100, 210, 5)]
  seq := [Dir.U]
  lastAcceptTs := 7/100
  insideReset := false
  needReset := false
  lastDir := some Dir.U
  speedMedian := 10250
  lastAboveThresholdTs := 7/100
  lastSampleTs := 7/100

end

/-! ## Theorems -/

section Theorems

open Dir

/-- `matchStep` only ever fires a macro whose pattern is nonempty, as long
as the scanned sequence itself is nonempty: an empty pattern forces the
slice `seq[-0:]`, which is the whole (nonempty) sequence and cannot equal
`[]`. -/
theorem matchStep_fired_pattern_ne_nil (macros : List MacroRule) :
    ∀ (seq : List Dir), seq ≠ [] →
      ∀ m, (matchStep macros seq).1 = some m → m.pattern ≠ [] := by
  induction macros with
  | nil => intro seq _ m h; simp [matchStep] at h
  | cons m0 rest ih =>
    intro seq hne m h
    by_cases hc : suffixMatches seq m0
    · simp only [matchStep, if_pos hc] at h
      obtain rfl : m0 = m := by simpa using h
      intro hp
      rcases hc with ⟨_, hsl⟩
      rw [hp] at hsl
      simp [pySliceLast] at hsl
      exact hne hsl
    · simp only [matchStep, if_neg hc] at h
      exact ih seq hne m h

/-- C10: a macro whose pattern is the empty list never fires: the hit is
appended before matching, so the sequence is nonempty at match time and
the length-0 suffix comparison compares the whole nonempty sequence
against `[]`; hence `on_match` never returns such a macro and it never
clears the sequence. -/
theorem C10_empty_pattern_never_fires (macros : List MacroRule)
    (seq : List Dir) (d : Dir) (m : MacroRule) (hp : m.pattern = []) :
    (matchStep macros (seq ++ [d])).1 ≠ some m := by
  intro h
  exact matchStep_fired_pattern_ne_nil macros (seq ++ [d]) (by simp) m h hp

/-- Witness for C10 at a concrete macro list containing an empty-pattern
macro followed by a macro that does fire. -/
theorem C10_witness :
    mEmpty.pattern = [] ∧
      (matchStep [mEmpty, mOne] ([] ++ [Dir.U])).1 ≠ some mEmpty :=
  ⟨rfl, C10_empty_pattern_never_fires [mEmpty, mOne] [] Dir.U mEmpty rfl⟩

/-- C8: calling `reset(t)` twice in succession yields an `EngineState`
identical to calling it once, with empty sample buffer, empty running
sequence, `needsReset = false`, `insideResetCircle = false`,
`lastAcceptTs = 0`, `lastAboveThresholdTs = 0` and the last sample time
anchored at `t`, regardless of prior state. -/
theorem C8_reset_idempotent (s : EngineState) (t : ℝ) :
    reset (reset s t) t = reset s t ∧
      (reset s t).samples = [] ∧ (reset s t).seq = [] ∧
      (reset s t).needReset = false ∧ (reset s t).insideReset = false ∧
      (reset s t).lastAcceptTs = 0 ∧ (reset s t).lastAboveThresholdTs = 0 ∧
      (reset s t).lastSampleTs = t :=
  ⟨rfl, rfl, rfl, rfl, rfl, rfl, rfl, rfl⟩

/-- C3 counterexample: with `resetRadiusPx = 0` the inside-reset-circle
test is satisfied at the exact canvas center (210, 210) of the 420 by 420
canvas, so it is not the case that every canvas point fails the test. -/
theorem C3_counterexample :
    insideResetCircle cfgZeroR 210 210 = true ∧
      ¬ (∀ x y : ℝ, 0 ≤ x → x < 420 → 0 ≤ y → y < 420 →
          insideResetCircle cfgZeroR x y = false) := by
  have hc : insideResetCircle cfgZeroR 210 210 = true := by
    simp only [insideResetCircle, cxR, cyR, cfgZeroR, cfgC1, decide_eq_true_eq]
    norm_num
  refine ⟨hc, fun h => ?_⟩
  have := h 210 210 (by norm_num) (by norm_num) (by norm_num) (by norm_num)
  rw [hc] at this
  simp at this

/-- C3 amended: with `resetRadiusPx = 0`, the inside-reset-circle test
returns false at every canvas point except the exact canvas center, where
it returns true (the zero-radius circle degenerates to the single center
point). -/
theorem C3_zero_radius (cfg : Config) (x y : ℝ) (hr : cfg.resetRadius = 0)
    (_hx0 : 0 ≤ x) (_hx1 : x < (cfg.canvasW : ℝ))
    (_hy0 : 0 ≤ y) (_hy1 : y < (cfg.canvasH : ℝ))
    (hne : ¬(x = cxR cfg ∧ y = cyR cfg)) :
    insideResetCircle cfg x y = false := by
  simp only [insideResetCircle, hr, decide_eq_false_iff_not]
  intro hle
  norm_num at hle
  have hx : (x - cxR cfg) ^ 2 = 0 :=
    le_antisymm (by nlinarith [sq_nonneg (y - cyR cfg)]) (sq_nonneg _)
  have hy : (y - cyR cfg) ^ 2 = 0 :=
    le_antisymm (by nlinarith [sq_nonneg (x - cxR cfg)]) (sq_nonneg _)
  exact hne ⟨by nlinarith [sq_nonneg (x - cxR cfg)], by nlinarith⟩

/-- Witness for C3 amended at the corner (0, 0) of the scenario canvas. -/
theorem C3_zero_radius_witness :
    cfgZeroR.resetRadius = 0 ∧ insideResetCircle cfgZeroR 0 0 = false := by
  refine ⟨rfl, C3_zero_radius cfgZeroR 0 0 rfl le_rfl ?_ le_rfl ?_ ?_⟩
  · show (0 : ℝ) < ((420 : ℤ) : ℝ); norm_num
  · show (0 : ℝ) < ((420 : ℤ) : ℝ); norm_num
  · intro h
    have := h.1
    simp only [cxR, cfgZeroR, cfgC1] at this
    norm_num at this

/-- C4 counterexample: with macros `[A := [Up, Up], B := [Up]]`, feeding
hits `Up, Up` fires `B` on each hit (the first `Up` already matches `B`'s
one-element pattern), so the fired list is `[B, B]`, not a single firing
of `A`. -/
theorem C4_counterexample :
    (feedHits [mUU, mU] [] [Dir.U, Dir.U]).1 = [mU, mU] ∧
      (feedHits [mUU, mU] [] [Dir.U, Dir.U]).1 ≠ [mUU] := by
  constructor
  · rfl
  · decide

/-- C4 amended: after a hit is appended, macros are scanned in configured
list order and the first macro whose pattern equals the same-length
suffix fires; on a match the entire sequence is cleared and the scan
stops.  Concretely, with macros `[A := [Up, Up], B := [Up]]`, feeding
hits `Up, Up` fires `B` twice (each single `Up` matches `B` before `A`'s
longer pattern can apply), clears the sequence on each match, and `A`
never fires. -/
theorem C4_first_match_fires :
    (∀ (macros : List MacroRule) (seq : List Dir) (m : MacroRule)
        (ns : List Dir),
      matchStep macros seq = (some m, ns) →
        ns = [] ∧ ∃ l1 l2, macros = l1 ++ m :: l2 ∧ suffixMatches seq m ∧
          ∀ m' ∈ l1, ¬ suffixMatches seq m') ∧
    feedHits [mUU, mU] [] [Dir.U, Dir.U] = ([mU, mU], []) := by
  constructor
  · intro macros
    induction macros with
    | nil => intro seq m ns h; simp [matchStep] at h
    | cons m0 rest ih =>
      intro seq m ns h
      by_cases hc : suffixMatches seq m0
      · simp only [matchStep, if_pos hc, Prod.mk.injEq] at h
        obtain ⟨rfl, rfl⟩ : m0 = m ∧ ns = [] := ⟨by simpa using h.1, h.2.symm⟩
        exact ⟨rfl, [], rest, rfl, hc, by simp⟩
      · simp only [matchStep, if_neg hc] at h
        obtain ⟨hns, l1, l2, hsplit, hm, hnone⟩ := ih seq m ns h
        refine ⟨hns, m0 :: l1, l2, by rw [hsplit]; rfl, hm, ?_⟩
        intro m' hm'
        rcases List.mem_cons.mp hm' with rfl | hmem
        · exact hc
        · exact hnone m' hmem
  · rfl

/-- Witness for C4 amended: the first-match characterization applied to
the concrete scan of sequence `[Up]` against `[A, B]`, which fires `B`. -/
theorem C4_witness :
    ([] : List Dir) = [] ∧
      ∃ l1 l2, [mUU, mU] = l1 ++ mU :: l2 ∧ suffixMatches [Dir.U] mU ∧
        ∀ m' ∈ l1, ¬ suffixMatches [Dir.U] m' :=
  C4_first_match_fires.1 [mUU, mU] [Dir.U] mU [] rfl

/-- The median of a two-element list is the average of its elements. -/
theorem median_pair (a b : ℝ) : median [a, b] = 0.5 * (a + b) := by
  rcases le_or_lt a b with h | h
  · simp [median, List.insertionSort, List.orderedInsert, h]
  · simp [median, List.insertionSort, List.orderedInsert, not_le.mpr h, add_comm]

/-- Evaluation lemma for `hypot` at arguments with a known square sum. -/
theorem hypot_eval (dx dy c : ℝ) (hc : 0 ≤ c) (h : dx ^ 2 + dy ^ 2 = c ^ 2) :
    hypot dx dy = c := by
  rw [hypot, h, Real.sqrt_sq hc]

/-- `computeSpeedAndDir` on a three-sample buffer: two pairs, speed the
average of the two pair speeds, direction from the summed deltas. -/
theorem csd_three (cfg : Config) (t0 x0 y0 t1 x1 y1 t2 x2 y2 : ℝ) :
    computeSpeedAndDir cfg [(t0, x0, y0), (t1, x1, y1), (t2, x2, y2)] =
      (0.5 * (hypot (x2 - x1) (y2 - y1) / max (1 / 10000) (t2 - t1) +
              hypot (x1 - x0) (y1 - y0) / max (1 / 10000) (t1 - t0)),
       some (dirOfSums cfg ((x2 - x1) + (x1 - x0)) ((y2 - y1) + (y1 - y0))),
       ((x2 - x1) + (x1 - x0), (y2 - y1) + (y1 - y0))) := by
  have hr : List.range' 1 2 = [1, 2] := rfl
  simp [computeSpeedAndDir, hr, List.getD, median_pair]

/-- With at least 3 samples, `computeSpeedAndDir` returns a determined
direction computed by `dirOfSums` from its summed deltas. -/
theorem csd_struct (cfg : Config) (samples : List (ℝ × ℝ × ℝ))
    (h : 3 ≤ samples.length) :
    ∃ v dx dy, computeSpeedAndDir cfg samples =
      (v, some (dirOfSums cfg dx dy), (dx, dy)) := by
  rw [computeSpeedAndDir, if_neg (by omega)]
  exact ⟨_, _, _, rfl⟩

/-- Reading a concatenated singleton back at its own index. -/
theorem getD_concat_self (L : List (ℝ × ℝ × ℝ)) (p : ℝ × ℝ × ℝ) :
    (L ++ [p]).getD L.length (0, 0, 0) = p := by
  rw [List.getD_append_right _ _ _ _ le_rfl]
  simp

/-- The most recent entry of the sample buffer after a push is the pushed
sample, also when capacity eviction kicks in. -/
theorem pushSample_getLast (l : List (ℝ × ℝ × ℝ)) (p : ℝ × ℝ × ℝ) :
    (pushSample l p).getD ((pushSample l p).length - 1) (0, 0, 0) = p := by
  unfold pushSample
  by_cases h : (l ++ [p]).length ≤ 64
  · rw [if_pos h]
    have : (l ++ [p]).length - 1 = l.length := by simp
    rw [this]
    exact getD_concat_self l p
  · rw [if_neg h]
    have h65 : 65 ≤ l.length + 1 := by simp at h; omega
    set k := (l ++ [p]).length - 64 with hk
    have hkl : k ≤ l.length := by
      simp only [hk, List.length_append, List.length_singleton]
      omega
    have hd : (l ++ [p]).drop k = l.drop k ++ [p] := by
      rw [List.drop_append_eq_append_drop]
      have : k - l.length = 0 := by omega
      rw [this]
      simp
    rw [hd]
    have hlen : (l.drop k ++ [p]).length - 1 = (l.drop k).length := by simp
    rw [hlen]
    exact getD_concat_self (l.drop k) p

/-- First scenario push at `t = 0`: fewer than 3 samples, no direction. -/
theorem push1cex : push cfgC1 [] initEngine 0 210 210 = (st1cex, none, none) := by
  have h1 : pushSample ([] : List (ℝ × ℝ × ℝ)) ((0 : ℝ), (210 : ℝ), (210 : ℝ)) =
      [(0, 210, 210)] := by
    simp [pushSample]
  have h2 : computeSpeedAndDir cfgC1 [((0 : ℝ), (210 : ℝ), (210 : ℝ))] = (0, none, (0, 0)) := by
    rw [computeSpeedAndDir, if_pos (by norm_num)]
  have h3 : insideResetCircle cfgC1 210 210 = true := by
    simp only [insideResetCircle, cxR, cyR, cfgC1, decide_eq_true_eq]
    norm_num
  have h4 : updatedNeedReset cfgC1 initEngine 210 210 = false := by
    simp [updatedNeedReset, h3, show initEngine.insideReset = false from rfl,
      show initEngine.needReset = false from rfl,
      show cfgC1.requireReset = false from rfl]
  simp only [push, show initEngine.samples = ([] : List (ℝ × ℝ × ℝ)) from rfl, h1, h2, h3, h4]
  simp [st1cex, show initEngine.seq = ([] : List Dir) from rfl,
    show initEngine.lastAcceptTs = (0 : ℝ) from rfl,
    show initEngine.lastAboveThresholdTs = (0 : ℝ) from rfl]

/-- Second scenario push at `t = 0.010`: still fewer than 3 samples. -/
theorem push2cex : push cfgC1 [] st1cex (1/100) 210 60 = (st2cex, none, none) := by
  have h1 : pushSample [((0 : ℝ), (210 : ℝ), (210 : ℝ))] ((1/100 : ℝ), (210 : ℝ), (60 : ℝ)) =
      [(0, 210, 210), (1/100, 210, 60)] := by
    simp [pushSample]
  have h2 : computeSpeedAndDir cfgC1 [((0 : ℝ), (210 : ℝ), (210 : ℝ)), (1/100, 210, 60)] =
      (0, none, (0, 0)) := by
    rw [computeSpeedAndDir, if_pos (by norm_num)]
  have h3 : insideResetCircle cfgC1 210 60 = false := by
    simp only [insideResetCircle, cxR, cyR, cfgC1, decide_eq_false_iff_not]
    norm_num
  have h4 : updatedNeedReset cfgC1 st1cex 210 60 = false := by
    simp [updatedNeedReset, h3, show st1cex.needReset = false from rfl]
  simp only [push, show st1cex.samples = [((0 : ℝ), (210 : ℝ), (210 : ℝ))] from rfl, h1, h2, h3, h4]
  simp [st2cex, show st1cex.seq = ([] : List Dir) from rfl,
    show st1cex.lastAcceptTs = (0 : ℝ) from rfl,
    show st1cex.lastAboveThresholdTs = (0 : ℝ) from rfl]

/-- Speed and direction over the three literal scenario samples: median
speed 10250 px/s, direction Up, summed deltas `(0, -205)`. -/
theorem csd3cex : computeSpeedAndDir cfgC1
    [((0 : ℝ), (210 : ℝ), (210 : ℝ)), (1/100, 210, 60), (1/50, 210, 5)] =
    (10250, some Dir.U, (0, -205)) := by
  have hy1 : hypot (0 : ℝ) (-55) = 55 := hypot_eval 0 (-55) 55 (by norm_num) (by norm_num)
  have hy2 : hypot (0 : ℝ) (-150) = 150 := hypot_eval 0 (-150) 150 (by norm_num) (by norm_num)
  have hm : max (1/10000 : ℝ) (1/100) = 1/100 := max_eq_right (by norm_num)
  have hdir : dirOfSums cfgC1 0 (-205) = Dir.U := by
    simp only [dirOfSums, show cfgC1.angleMode = AngleMode.axis from rfl]
    norm_num
  rw [csd_three]
  norm_num [hy1, hy2, hm, hdir]

/-- Third scenario push at `t = 0.020`: direction Up at 10250 px/s inside
the top band, but the debounce gate (20 ms since `lastAcceptTs = 0`)
rejects the hit. -/
theorem push3cex : push cfgC1 [] st2cex (1/50) 210 5 = (st3cex, none, none) := by
  have h1 : pushSample [((0 : ℝ), (210 : ℝ), (210 : ℝ)), (1/100, 210, 60)]
      ((1/50 : ℝ), (210 : ℝ), (5 : ℝ)) =
      [(0, 210, 210), (1/100, 210, 60), (1/50, 210, 5)] := by
    simp [pushSample]
  have h3 : insideResetCircle cfgC1 210 5 = false := by
    simp only [insideResetCircle, cxR, cyR, cfgC1, decide_eq_false_iff_not]
    norm_num
  have h4 : updatedNeedReset cfgC1 st2cex 210 5 = false := by
    simp [updatedNeedReset, h3, show st2cex.needReset = false from rfl]
  simp only [push, show st2cex.samples = [((0 : ℝ), (210 : ℝ), (210 : ℝ)), (1/100, 210, 60)] from rfl,
    h1, csd3cex, h3, h4]
  simp only [List.getD, List.length_cons, List.length_nil]
  simp [st3cex, inBand, bandY, cfgC1,
    show st2cex.seq = ([] : List Dir) from rfl,
    show st2cex.lastAcceptTs = (0 : ℝ) from rfl,
    show st2cex.lastAboveThresholdTs = (0 : ℝ) from rfl]
  norm_num

/-- The literal end-to-end scenario run: no hit and no match ever fires. -/
theorem runcex :
    runEngine cfgC1 [] initEngine [(0, 210, 210), (1/100, 210, 60), (1/50, 210, 5)] =
      (st3cex, [], []) := by
  simp only [runEngine, push1cex, push2cex, push3cex, Option.toList,
    List.append_nil, List.nil_append]

/-- C1 counterexample: on a fresh engine with the scenario configuration,
the three samples `(0, 210, 210)`, `(0.010, 210, 60)`, `(0.020, 210, 5)`
produce zero hit notifications (the debounce gate measures 20 ms from the
initial `lastAcceptTs = 0` and rejects the would-be Up hit), so the run
does not produce exactly one Up hit. -/
theorem C1_counterexample :
    (runEngine cfgC1 [] initEngine
        [(0, 210, 210), (1/100, 210, 60), (1/50, 210, 5)]).2.1 = [] ∧
      (runEngine cfgC1 [] initEngine
        [(0, 210, 210), (1/100, 210, 60), (1/50, 210, 5)]).2.1 ≠ [Dir.U] := by
  rw [runcex]
  exact ⟨rfl, by simp⟩

/-- First shifted push at `t = 0.050`. -/
theorem push1am : push cfgC1 [] initEngine (1/20) 210 210 = (stA1, none, none) := by
  have h1 : pushSample ([] : List (ℝ × ℝ × ℝ)) ((1/20 : ℝ), (210 : ℝ), (210 : ℝ)) =
      [(1/20, 210, 210)] := by
    simp [pushSample]
  have h2 : computeSpeedAndDir cfgC1 [((1/20 : ℝ), (210 : ℝ), (210 : ℝ))] = (0, none, (0, 0)) := by
    rw [computeSpeedAndDir, if_pos (by norm_num)]
  have h3 : insideResetCircle cfgC1 210 210 = true := by
    simp only [insideResetCircle, cxR, cyR, cfgC1, decide_eq_true_eq]
    norm_num
  have h4 : updatedNeedReset cfgC1 initEngine 210 210 = false := by
    simp [updatedNeedReset, h3, show initEngine.insideReset = false from rfl,
      show initEngine.needReset = false from rfl,
      show cfgC1.requireReset = false from rfl]
  simp only [push, show initEngine.samples = ([] : List (ℝ × ℝ × ℝ)) from rfl, h1, h2, h3, h4]
  simp [stA1, show initEngine.seq = ([] : List Dir) from rfl,
    show initEngine.lastAcceptTs = (0 : ℝ) from rfl,
    show initEngine.lastAboveThresholdTs = (0 : ℝ) from rfl]

/-- Second shifted push at `t = 0.060`. -/
theorem push2am : push cfgC1 [] stA1 (3/50) 210 60 = (stA2, none, none) := by
  have h1 : pushSample [((1/20 : ℝ), (210 : ℝ), (210 : ℝ))] ((3/50 : ℝ), (210 : ℝ), (60 : ℝ)) =
      [(1/20, 210, 210), (3/50, 210, 60)] := by
    simp [pushSample]
  have h2 : computeSpeedAndDir cfgC1 [((1/20 : ℝ), (210 : ℝ), (210 : ℝ)), (3/50, 210, 60)] =
      (0, none, (0, 0)) := by
    rw [computeSpeedAndDir, if_pos (by norm_num)]
  have h3 : insideResetCircle cfgC1 210 60 = false := by
    simp only [insideResetCircle, cxR, cyR, cfgC1, decide_eq_false_iff_not]
    norm_num
  have h4 : updatedNeedReset cfgC1 stA1 210 60 = false := by
    simp [updatedNeedReset, h3, show stA1.needReset = false from rfl]
  simp only [push, show stA1.samples = [((1/20 : ℝ), (210 : ℝ), (210 : ℝ))] from rfl, h1, h2, h3, h4]
  simp [stA2, show stA1.seq = ([] : List Dir) from rfl,
    show stA1.lastAcceptTs = (0 : ℝ) from rfl,
    show stA1.lastAboveThresholdTs = (0 : ℝ) from rfl]

/-- Speed and direction over the three shifted scenario samples. -/
theorem csd3am : computeSpeedAndDir cfgC1
    [((1/20 : ℝ), (210 : ℝ), (210 : ℝ)), (3/50, 210, 60), (7/100, 210, 5)] =
    (10250, some Dir.U, (0, -205)) := by
  have hy1 : hypot (0 : ℝ) (-55) = 55 := hypot_eval 0 (-55) 55 (by norm_num) (by norm_num)
  have hy2 : hypot (0 : ℝ) (-150) = 150 := hypot_eval 0 (-150) 150 (by norm_num) (by norm_num)
  have hm : max (1/10000 : ℝ) (1/100) = 1/100 := max_eq_right (by norm_num)
  have hdir : dirOfSums cfgC1 0 (-205) = Dir.U := by
    simp only [dirOfSums, show cfgC1.angleMode = AngleMode.axis from rfl]
    norm_num
  rw [csd_three]
  norm_num [hy1, hy2, hm, hdir]

/-- Third shifted push at `t = 0.070`: all gates pass and the Up hit is
accepted. -/
theorem push3am : push cfgC1 [] stA2 (7/100) 210 5 = (stA3, some Dir.U, none) := by
  have h1 : pushSample [((1/20 : ℝ), (210 : ℝ), (210 : ℝ)), (3/50, 210, 60)]
      ((7/100 : ℝ), (210 : ℝ), (5 : ℝ)) =
      [(1/20, 210, 210), (3/50, 210, 60), (7/100, 210, 5)] := by
    simp [pushSample]
  have h3 : insideResetCircle cfgC1 210 5 = false := by
    simp only [insideResetCircle, cxR, cyR, cfgC1, decide_eq_false_iff_not]
    norm_num
  have h4 : updatedNeedReset cfgC1 stA2 210 5 = false := by
    simp [updatedNeedReset, h3, show stA2.needReset = false from rfl]
  simp only [push, show stA2.samples = [((1/20 : ℝ), (210 : ℝ), (210 : ℝ)), (3/50, 210, 60)] from rfl,
    h1, csd3am, h3, h4]
  simp only [List.getD, List.length_cons, List.length_nil]
  simp [stA3, inBand, bandY, cfgC1,
    show stA2.seq = ([] : List Dir) from rfl,
    show stA2.lastAcceptTs = (0 : ℝ) from rfl,
    show stA2.lastAboveThresholdTs = (0 : ℝ) from rfl]
  norm_num

/-- The shifted end-to-end run: exactly one Up hit, no macro match. -/
theorem runam :
    runEngine cfgC1 [] initEngine [(1/20, 210, 210), (3/50, 210, 60), (7/100, 210, 5)] =
      (stA3, [Dir.U], []) := by
  simp only [runEngine, push1am, push2am, push3am, Option.toList,
    List.append_nil, List.nil_append]

/-- C1 amended: the end-to-end scenario produces exactly one hit
notification with direction Up once its timestamps are shifted 50 ms away
from the engine's epoch (`t = 0.050, 0.060, 0.070`), so that the third
sample clears the debounce gate measured from the initial
`lastAcceptTs = 0`; at the literal times `0.000, 0.010, 0.020` the run
produces zero hits. -/
theorem C1_shifted_one_up_hit :
    (runEngine cfgC1 [] initEngine
        [(1/20, 210, 210), (3/50, 210, 60), (7/100, 210, 5)]).2.1 = [Dir.U] ∧
      (runEngine cfgC1 [] initEngine
        [(1/20, 210, 210), (3/50, 210, 60), (7/100, 210, 5)]).2.2 = [] := by
  rw [runam]
  exact ⟨rfl, rfl⟩

/-- C2 counterexample: on `sixSamples` (5 tail pairs) the code's direction
is Up, computed from the 3 oldest pairs of the tail, while the direction
computed from the 3 most recent pairs as the claim states it is Right; the
newest pairs do not influence the returned direction. -/
theorem C2_counterexample :
    (computeSpeedAndDir cfgC1 sixSamples).2.1 = some Dir.U ∧
      specDirNewest3 cfgC1 sixSamples = some Dir.R ∧
      (computeSpeedAndDir cfgC1 sixSamples).2.1 ≠ specDirNewest3 cfgC1 sixSamples := by
  have h1 : (computeSpeedAndDir cfgC1 sixSamples).2.1 = some Dir.U := by
    rw [computeSpeedAndDir, if_neg (by norm_num [sixSamples])]
    simp only [sixSamples]
    norm_num [show List.range' 1 5 = [1, 2, 3, 4, 5] from rfl, List.getD,
      dirOfSums, show cfgC1.angleMode = AngleMode.axis from rfl]
  have h2 : specDirNewest3 cfgC1 sixSamples = some Dir.R := by
    rw [specDirNewest3, if_neg (by norm_num [sixSamples])]
    simp only [sixSamples, specTailDxs, specTailDys]
    norm_num [show List.range 5 = [0, 1, 2, 3, 4] from rfl, List.getD,
      dirOfSums, show cfgC1.angleMode = AngleMode.axis from rfl]
  refine ⟨h1, h2, ?_⟩
  rw [h1, h2]
  simp

/-- C2 amended: for every buffer with at least 3 samples, the direction
symbol is computed by `dirOfSums` from the sums of `dx` and `dy` over the
3 oldest consecutive pairs of the selected tail (the per-pair lists are
built newest-to-oldest, so the Python slice `[-3:]` selects the oldest 3
pairs); when 4 or more pairs exist, pairs newer than those 3 do not
influence the direction. -/
theorem C2_direction_from_oldest3 (cfg : Config) (samples : List (ℝ × ℝ × ℝ))
    (h : 3 ≤ samples.length) :
    (computeSpeedAndDir cfg samples).2.1 =
      some (dirOfSums cfg ((specTailDxs samples).take 3).sum
        ((specTailDys samples).take 3).sum) := by
  rw [computeSpeedAndDir, if_neg (by omega)]
  simp only [specTailDxs, specTailDys]
  congr 2
  all_goals {
    obtain ⟨n, hn⟩ : ∃ n, samples.length = n := ⟨_, rfl⟩
    rw [hn] at h ⊢
    rcases lt_or_ge n 6 with h6 | h6
    · interval_cases n
      · norm_num [show List.range' 1 2 = [1, 2] from rfl,
          show List.range 2 = [0, 1] from rfl]
      · norm_num [show List.range' 1 3 = [1, 2, 3] from rfl,
          show List.range 3 = [0, 1, 2] from rfl]
      · norm_num [show List.range' 1 4 = [1, 2, 3, 4] from rfl,
          show List.range 4 = [0, 1, 2, 3] from rfl]
    · rw [show min 6 n = 6 from by omega]
      norm_num [show List.range' 1 5 = [1, 2, 3, 4, 5] from rfl,
        show List.range 5 = [0, 1, 2, 3, 4] from rfl]
      rw [show n - 3 - 1 = n - 4 from by omega,
        show n - 4 - 1 = n - 5 from by omega,
        show n - 5 - 1 = n - 6 from by omega,
        show n - 6 + 2 + 1 = n - 3 from by omega]
      ring
  }

/-- Witness for C2 amended at the concrete six-sample buffer. -/
theorem C2_witness :
    (computeSpeedAndDir cfgC1 sixSamples).2.1 =
      some (dirOfSums cfgC1 ((specTailDxs sixSamples).take 3).sum
        ((specTailDys sixSamples).take 3).sum) :=
  C2_direction_from_oldest3 cfgC1 sixSamples (by norm_num [sixSamples])

/-- C5: a pushed sample rejected by any gate test (undetermined direction,
speed below threshold, point outside the matching edge band, debounce not
elapsed, or reset interlock pending) leaves `lastAcceptTs` and the running
sequence unchanged and emits neither a hit nor a match notification. -/
theorem C5_rejected_sample_no_mutation (cfg : Config) (macros : List MacroRule)
    (s : EngineState) (t x y : ℝ)
    (hrej :
      (computeSpeedAndDir cfg (pushSample s.samples (t, x, y))).2.1 = none ∨
      (computeSpeedAndDir cfg (pushSample s.samples (t, x, y))).1 < cfg.speedThreshold ∨
      (∀ dd, (computeSpeedAndDir cfg (pushSample s.samples (t, x, y))).2.1 = some dd →
        inBand cfg x y dd = false) ∨
      (t - s.lastAcceptTs) * 1000 < (cfg.debounceMs : ℝ) ∨
      (cfg.requireReset = true ∧ updatedNeedReset cfg s x y = true)) :
    (push cfg macros s t x y).1.lastAcceptTs = s.lastAcceptTs ∧
      (push cfg macros s t x y).1.seq = s.seq ∧
      (push cfg macros s t x y).2.1 = none ∧
      (push cfg macros s t x y).2.2 = none := by
  simp only [push, pushSample_getLast]
  rcases hd : (computeSpeedAndDir cfg (pushSample s.samples (t, x, y))).2.1 with _ | dd
  · simp
  · simp only []
    by_cases hv : (computeSpeedAndDir cfg (pushSample s.samples (t, x, y))).1 < cfg.speedThreshold
    · rw [if_pos hv]; simp
    · rw [if_neg hv]
      by_cases hb : inBand cfg x y dd = true
      · rw [hb]
        simp only [Bool.not_true, if_neg (by simp : ¬ (false = true))]
        by_cases hdb : (t - s.lastAcceptTs) * 1000 < (cfg.debounceMs : ℝ)
        · rw [if_pos hdb]; simp
        · rw [if_neg hdb]
          by_cases hir : cfg.requireReset = true ∧ updatedNeedReset cfg s x y = true
          · rw [if_pos hir]; simp
          · exfalso
            rcases hrej with h | h | h | h | h
            · rw [hd] at h; exact Option.some_ne_none dd h
            · exact hv h
            · rw [h dd hd] at hb; exact Bool.false_ne_true hb
            · exact hdb h
            · exact hir h
      · have hb' : inBand cfg x y dd = false := by
          cases hfb : inBand cfg x y dd
          · rfl
          · exact absurd hfb hb
        rw [hb']
        simp

/-- Witness for C5: the first scenario push is rejected (no direction yet)
and leaves `lastAcceptTs`, the sequence and both notifications untouched. -/
theorem C5_witness :
    (push cfgC1 [] initEngine 0 210 210).1.lastAcceptTs = initEngine.lastAcceptTs ∧
      (push cfgC1 [] initEngine 0 210 210).1.seq = initEngine.seq ∧
      (push cfgC1 [] initEngine 0 210 210).2.1 = none ∧
      (push cfgC1 [] initEngine 0 210 210).2.2 = none := by
  refine C5_rejected_sample_no_mutation cfgC1 [] initEngine 0 210 210 (Or.inl ?_)
  have h1 : pushSample initEngine.samples ((0 : ℝ), (210 : ℝ), (210 : ℝ)) =
      [((0 : ℝ), (210 : ℝ), (210 : ℝ))] := by
    simp [pushSample, initEngine]
  rw [h1, computeSpeedAndDir, if_pos (by norm_num)]

/-- C6: a qualifying motion (determined direction at or above the speed
threshold, ending inside the matching edge band, reset interlock off)
arriving strictly less than `debounceMs` after `lastAcceptTs` produces no
hit notification, while the same motion arriving at or after `debounceMs`
produces the hit. -/
theorem C6_debounce (cfg : Config) (macros : List MacroRule) (s : EngineState)
    (t x y : ℝ) (dd : Dir)
    (hreq : cfg.requireReset = false)
    (hd : (computeSpeedAndDir cfg (pushSample s.samples (t, x, y))).2.1 = some dd)
    (hv : cfg.speedThreshold ≤ (computeSpeedAndDir cfg (pushSample s.samples (t, x, y))).1)
    (hb : inBand cfg x y dd = true) :
    ((t - s.lastAcceptTs) * 1000 < (cfg.debounceMs : ℝ) →
      (push cfg macros s t x y).2.1 = none) ∧
    ((cfg.debounceMs : ℝ) ≤ (t - s.lastAcceptTs) * 1000 →
      (push cfg macros s t x y).2.1 = some dd) := by
  simp only [push, pushSample_getLast]
  rcases hde : (computeSpeedAndDir cfg (pushSample s.samples (t, x, y))).2.1 with _ | dd'
  · rw [hde] at hd; exact absurd hd (by simp)
  · rw [hde] at hd
    obtain rfl : dd' = dd := by simpa using hd
    simp only []
    rw [if_neg (not_lt.mpr hv), hb]
    simp only [Bool.not_true, if_neg (by simp : ¬ (false = true))]
    constructor
    · intro hlt
      rw [if_pos hlt]
    · intro hge
      rw [if_neg (not_lt.mpr hge), if_neg (by simp [hreq])]
      by_cases hm : macros.isEmpty
      · rw [if_pos hm]
      · rw [if_neg hm]

/-- Witness for C6: from the state after the first two shifted scenario
pushes, the qualifying Up motion at `t = 0.070` arrives 70 ms after
`lastAcceptTs = 0`, at or beyond the 50 ms debounce, and is accepted. -/
theorem C6_witness :
    ((cfgC1.debounceMs : ℝ) ≤ (7/100 - stA2.lastAcceptTs) * 1000) ∧
      (push cfgC1 [] stA2 (7/100) 210 5).2.1 = some Dir.U := by
  have hps : pushSample stA2.samples ((7/100 : ℝ), (210 : ℝ), (5 : ℝ)) =
      [((1/20 : ℝ), (210 : ℝ), (210 : ℝ)), (3/50, 210, 60), (7/100, 210, 5)] := by
    simp [pushSample, stA2]
  have hd : (computeSpeedAndDir cfgC1 (pushSample stA2.samples (7/100, 210, 5))).2.1 =
      some Dir.U := by
    rw [hps, csd3am]
  have hv : cfgC1.speedThreshold ≤
      (computeSpeedAndDir cfgC1 (pushSample stA2.samples (7/100, 210, 5))).1 := by
    rw [hps, csd3am]
    norm_num [cfgC1]
  have hb : inBand cfgC1 210 5 Dir.U = true := by
    simp only [inBand, bandY, decide_eq_true_eq]
    norm_num
  have hge : (cfgC1.debounceMs : ℝ) ≤ (7/100 - stA2.lastAcceptTs) * 1000 := by
    norm_num [stA2, cfgC1]
  exact ⟨hge, (C6_debounce cfgC1 [] stA2 (7/100) 210 5 Dir.U rfl hd hv hb).2 hge⟩

/-- C7: in angle mode, with `a` the degree angle of `(Σdx, -Σdy)`
normalized to `[0, 360)`, the estimator returns Right when `a ≤ 45` or
`a > 315`, Up when `45 < a ≤ 135`, Left when `135 < a ≤ 225`, and Down
when `225 < a ≤ 315`; in particular 45 maps to Right, 135 to Up, 225 to
Left, 315 to Down, and 316 to Right. -/
theorem C7_angle_sectors (cfg : Config) (samples : List (ℝ × ℝ × ℝ))
    (hmode : cfg.angleMode = .angle) (h3 : 3 ≤ samples.length) (a : ℝ)
    (ha : a = pymod (degrees (atan2 (-(computeSpeedAndDir cfg samples).2.2.2)
      ((computeSpeedAndDir cfg samples).2.2.1)) + 360) 360) :
    ((a ≤ 45 ∨ 315 < a) → (computeSpeedAndDir cfg samples).2.1 = some Dir.R) ∧
    (45 < a → a ≤ 135 → (computeSpeedAndDir cfg samples).2.1 = some Dir.U) ∧
    (135 < a → a ≤ 225 → (computeSpeedAndDir cfg samples).2.1 = some Dir.L) ∧
    (225 < a → a ≤ 315 → (computeSpeedAndDir cfg samples).2.1 = some Dir.D) := by
  obtain ⟨v, dx, dy, heq⟩ := csd_struct cfg samples h3
  rw [heq] at ha ⊢
  simp only [] at ha ⊢
  simp only [dirOfSums, hmode]
  rw [← ha]
  refine ⟨?_, ?_, ?_, ?_⟩
  · intro h
    rw [if_pos h]
  · intro h1 h2
    rw [if_neg (not_or.mpr ⟨not_le.mpr h1, not_lt.mpr (by linarith)⟩), if_pos h2]
  · intro h1 h2
    rw [if_neg (not_or.mpr ⟨not_le.mpr (by linarith), not_lt.mpr (by linarith)⟩),
      if_neg (not_le.mpr h1), if_pos h2]
  · intro h1 h2
    rw [if_neg (not_or.mpr ⟨not_le.mpr (by linarith), not_lt.mpr h2⟩),
      if_neg (not_le.mpr (by linarith)), if_neg (not_le.mpr h1)]

/-- Witness for C7: a purely rightward motion in angle mode has normalized
angle 0, lands in the first sector and yields direction Right. -/
theorem C7_witness :
    (pymod (degrees (atan2 (-(computeSpeedAndDir cfgAngle threeRight).2.2.2)
        ((computeSpeedAndDir cfgAngle threeRight).2.2.1)) + 360) 360 ≤ 45 ∨
      315 < pymod (degrees (atan2 (-(computeSpeedAndDir cfgAngle threeRight).2.2.2)
        ((computeSpeedAndDir cfgAngle threeRight).2.2.1)) + 360) 360) ∧
    (computeSpeedAndDir cfgAngle threeRight).2.1 = some Dir.R := by
  have hs : (computeSpeedAndDir cfgAngle threeRight).2.2 = (60, 0) := by
    simp only [threeRight]
    rw [csd_three]
    norm_num
  have ha0 : pymod (degrees (atan2 (-(computeSpeedAndDir cfgAngle threeRight).2.2.2)
      ((computeSpeedAndDir cfgAngle threeRight).2.2.1)) + 360) 360 = 0 := by
    rw [hs]
    norm_num [atan2, degrees, pymod, Real.arctan_zero]
  have h := C7_angle_sectors cfgAngle threeRight rfl (by norm_num [threeRight]) _ rfl
  exact ⟨Or.inl (by rw [ha0]; norm_num), h.1 (Or.inl (by rw [ha0]; norm_num))⟩

/-- C9: in axis mode, with at least 3 buffered samples and tied magnitudes
`|Σdx| = |Σdy|` over the direction window, the tie resolves to the
vertical axis: Down when `Σdy > 0`, Up otherwise; in particular the
all-zero case yields Up, never an undetermined result. -/
theorem C9_axis_tie (cfg : Config) (samples : List (ℝ × ℝ × ℝ))
    (hmode : cfg.angleMode = .axis) (h3 : 3 ≤ samples.length)
    (htie : |(computeSpeedAndDir cfg samples).2.2.1| =
      |(computeSpeedAndDir cfg samples).2.2.2|) :
    (computeSpeedAndDir cfg samples).2.1 =
      some (if 0 < (computeSpeedAndDir cfg samples).2.2.2 then Dir.D else Dir.U) := by
  obtain ⟨v, dx, dy, heq⟩ := csd_struct cfg samples h3
  rw [heq] at htie ⊢
  simp only [] at htie ⊢
  simp only [dirOfSums, hmode]
  rw [if_neg (by rw [htie]; exact lt_irrefl _)]

/-- Witness for C9: three samples at the same position give `Σdx = Σdy = 0`
and direction Up. -/
theorem C9_witness :
    |(computeSpeedAndDir cfgC1 threeStill).2.2.1| =
        |(computeSpeedAndDir cfgC1 threeStill).2.2.2| ∧
      (computeSpeedAndDir cfgC1 threeStill).2.1 = some Dir.U := by
  have hs : (computeSpeedAndDir cfgC1 threeStill).2.2 = (0, 0) := by
    simp only [threeStill]
    rw [csd_three]
    norm_num
  have htie : |(computeSpeedAndDir cfgC1 threeStill).2.2.1| =
      |(computeSpeedAndDir cfgC1 threeStill).2.2.2| := by
    rw [hs]
  have h := C9_axis_tie cfgC1 threeStill rfl (by norm_num [threeStill]) htie
  rw [hs] at h
  refine ⟨htie, ?_⟩
  simpa using h

end Theorems

end GestureKeys
